import Mathlib

/-!
# Verification of `airplanes-live-mcp`

A shallow embedding, in Lean 4, of the four Python source files of the
`Bellaposa/airplanes-live-mcp` repository:

* `airplane_server.py` — the MCP tool process: `format_aircraft_data`,
  `make_api_request` and the `handle_call_tool` dispatcher;
* `airplane_server_fastmcp.py` — the FastMCP variant of the same tools;
* `http_wrapper.py` — the direct HTTP facade over the upstream client;
* `sse_wrapper.py` — the stdio JSON-RPC bridge (`MCPStdioWrapper`), the
  geocoding helper and the city-search endpoint.

Pure computations are translated into executable Lean functions; the stateful
bridge is modelled as explicit state passing over a `BridgeWorld` record that
additionally records the trace of messages written to the child process.
Network effects (the upstream aircraft API, the geocoding service, the child
process's replies) are passed in as explicit function arguments, which also
lets the theorems observe whether the upstream client was invoked.

Numbers that Python handles as `float` are modelled as exact decimals
(`Dec` below): every literal this program feeds to `float()` and every bound
it compares against is an exact decimal, so no property proved here depends
on binary rounding.
-/

namespace AirplanesLive

/-- Build a string from explicit Unicode code points.  Several literals in
`airplane_server.py` consist of double-encoded (mojibake) emoji markers, so
they are constructed code point by code point to be character-exact. -/
def strOfCodes (cs : List Nat) : String :=
  String.mk (cs.map Char.ofNat)

/-- The ASCII whitespace recognised by Python `str.strip()` (no Unicode
whitespace occurs anywhere in this code base). -/
def isPySpace (c : Char) : Bool :=
  c == ' ' || c == '\t' || c == '\n' || c == '\r' || c == '\x0b' || c == '\x0c'

/-- Python `str.strip()`. -/
def pyStrip (s : String) : String :=
  String.mk (((s.data.dropWhile isPySpace).reverse.dropWhile isPySpace).reverse)

/-- Fuel-based decimal digit accumulator (fuel-based recursion keeps it
reducible inside the kernel). -/
def natDigitsAux : Nat → Nat → List Char → List Char
  | 0, _, acc => acc
  | fuel + 1, n, acc =>
    let d := Char.ofNat (48 + n % 10)
    if n < 10 then d :: acc else natDigitsAux fuel (n / 10) (d :: acc)

/-- Decimal rendering of a natural number. -/
def natStr (n : Nat) : String :=
  String.mk (natDigitsAux (n + 1) n [])

/-- Left-pad a string with `'0'` to width `w`. -/
def padZeros (w : Nat) (s : String) : String :=
  String.mk (List.replicate (w - s.data.length) '0') ++ s

/-- An exact decimal number with value `man / 10 ^ exp`.  This models the
numbers flowing through the program: JSON numbers from the upstream API and
results of Python `float()` on decimal strings. -/
structure Dec where
  man : Int
  exp : Nat
deriving DecidableEq, Repr

/-- The decimal with integer value `i`. -/
def Dec.ofInt (i : Int) : Dec := ⟨i, 0⟩

/-- Rational value of a decimal. -/
def Dec.toRat (a : Dec) : Rat := (a.man : Rat) / (10 : Rat) ^ a.exp

/-- `a ≤ b` on decimals, by cross multiplication (executable). -/
def Dec.ble (a b : Dec) : Bool := decide (a.man * 10 ^ b.exp ≤ b.man * 10 ^ a.exp)

/-- `a < b` on decimals, by cross multiplication (executable). -/
def Dec.blt (a b : Dec) : Bool := decide (a.man * 10 ^ b.exp < b.man * 10 ^ a.exp)

theorem Dec.ble_iff (a b : Dec) : a.ble b = true ↔ a.toRat ≤ b.toRat := by
  unfold Dec.ble Dec.toRat
  rw [decide_eq_true_iff]
  rw [div_le_div_iff₀ (by positivity) (by positivity)]
  constructor
  · intro h
    have h2 : ((a.man * 10 ^ b.exp : Int) : ℚ) ≤ ((b.man * 10 ^ a.exp : Int) : ℚ) :=
      Int.cast_le.2 h
    push_cast at h2
    linarith
  · intro h
    have h2 : ((a.man * 10 ^ b.exp : Int) : ℚ) ≤ ((b.man * 10 ^ a.exp : Int) : ℚ) := by
      push_cast
      linarith
    exact_mod_cast h2

theorem Dec.blt_iff (a b : Dec) : a.blt b = true ↔ a.toRat < b.toRat := by
  unfold Dec.blt Dec.toRat
  rw [decide_eq_true_iff]
  rw [div_lt_div_iff₀ (by positivity) (by positivity)]
  constructor
  · intro h
    have h2 : ((a.man * 10 ^ b.exp : Int) : ℚ) < ((b.man * 10 ^ a.exp : Int) : ℚ) :=
      Int.cast_lt.2 h
    push_cast at h2
    linarith
  · intro h
    have h2 : ((a.man * 10 ^ b.exp : Int) : ℚ) < ((b.man * 10 ^ a.exp : Int) : ℚ) := by
      push_cast
      linarith
    exact_mod_cast h2

/-- Round the integer fraction `num / den` (`den > 0`) to the nearest
integer, ties to even — the rounding used by Python's fixed-point `'.4f'`
format on the exact decimals this program prints. -/
def roundHalfEven (num den : Int) : Int :=
  let q := Int.fdiv num den
  let r := num - q * den
  if 2 * r < den then q
  else if den < 2 * r then q + 1
  else if q % 2 = 0 then q else q + 1

/-- Python `format(x, '.4f')`: four digits after the decimal point.
(The sign of a negative value that rounds to zero is dropped here, a case no
verified property exercises.) -/
def fmt4 (a : Dec) : String :=
  let k := roundHalfEven (a.man * 10 ^ 4) ((10 : Int) ^ a.exp)
  let n := k.natAbs
  (if k < 0 then "-" else "") ++ natStr (n / 10000) ++ "." ++ padZeros 4 (natStr (n % 10000))

/-- Python `str()` on the number of a JSON field: integers print without a
decimal point, decimals with one. -/
def pyNumStr (a : Dec) : String :=
  let n := a.man.natAbs
  let sign := if a.man < 0 then "-" else ""
  if a.exp = 0 then sign ++ natStr n
  else sign ++ natStr (n / 10 ^ a.exp) ++ "." ++ padZeros a.exp (natStr (n % 10 ^ a.exp))

/-- Digit-list value. -/
def digitsVal (cs : List Char) : Nat :=
  cs.foldl (fun n c => n * 10 + (c.toNat - 48)) 0

/-- `true` iff every character is an ASCII digit. -/
def allDigits (cs : List Char) : Bool := cs.all Char.isDigit

/-- Python `float()` on the plain decimal forms this program feeds it:
optional surrounding whitespace, optional sign, digits with at most one dot
and at least one digit overall.  Exponent notation, `inf`/`nan` and digit
underscores never occur in this program's inputs to `float()` and are not
modelled (they parse to `none` here). -/
def parseFloatAux (cs : List Char) : Option Dec :=
  let sb : Int × List Char :=
    match cs with
    | '-' :: rest => (-1, rest)
    | '+' :: rest => (1, rest)
    | rest => (1, rest)
  let sgn := sb.1
  let body := sb.2
  let ip := body.takeWhile (fun c => c != '.')
  let rest := body.dropWhile (fun c => c != '.')
  match rest with
  | [] =>
    if ip.isEmpty || !allDigits ip then none
    else some ⟨sgn * digitsVal ip, 0⟩
  | _ :: fp =>
    if fp.contains '.' then none
    else if (ip.isEmpty && fp.isEmpty) || !allDigits ip || !allDigits fp then none
    else some ⟨sgn * (digitsVal ip * 10 ^ fp.length + digitsVal fp), fp.length⟩

/-- Python `float()` (see `parseFloatAux`). -/
def parseFloat (s : String) : Option Dec := parseFloatAux (pyStrip s).data

theorem parseFloat_of_strip_empty {s : String} (h : pyStrip s = "") :
    parseFloat s = none := by
  unfold parseFloat
  rw [h]
  rfl

theorem strip_ne_empty_of_parseFloat {s : String} {d : Dec}
    (h : parseFloat s = some d) : ¬ pyStrip s = "" := by
  intro hb
  rw [parseFloat_of_strip_empty hb] at h
  exact Option.noConfusion h

example : parseFloat "90" = some ⟨90, 0⟩ := by decide
example : parseFloat " -0.4 " = some ⟨-4, 1⟩ := by decide
example : parseFloat "51.1" = some ⟨511, 1⟩ := by decide
example : parseFloat "abc" = none := by decide
example : fmt4 ⟨511, 1⟩ = "51.1000" := by decide
example : fmt4 ⟨-4, 1⟩ = "-0.4000" := by decide
example : fmt4 ⟨0, 0⟩ = "0.0000" := by decide
example : pyNumStr ⟨3755, 1⟩ = "375.5" := by decide
example : pyStrip "RYR123 " = "RYR123" := by decide

/-! ## Aircraft records and `format_aircraft_data`

`AircraftRecord` data model: one upstream JSON aircraft object, with exactly
the fields `format_aircraft_data` reads.  A missing JSON key is `none`. -/

structure Aircraft where
  callsign : Option String := none
  reg : Option String := none
  type : Option String := none
  lat : Option Dec := none
  lon : Option Dec := none
  alt_baro : Option Dec := none
  gs : Option Dec := none
  track : Option Dec := none
  hex : Option String := none
  seen_pos : Option Dec := none
deriving DecidableEq, Repr

/-- Python truthiness of `ac.get(key)` for a string-valued key: present and
non-empty. -/
def truthyStr : Option String → Bool
  | none => false
  | some s => s != ""

/-- Python truthiness of `ac.get(key)` for a number-valued key: present and
non-zero. -/
def truthyNum : Option Dec → Bool
  | none => false
  | some d => d.man != 0

/-- The literal line prefixes and the separator character used by
`format_aircraft_data`.  `airplane_server.py` and
`airplane_server_fastmcp.py` contain the same formatting logic with different
(in the former, mojibake-mangled) marker literals, so the shared logic is
parameterised by this record of literals. -/
structure FormatLabels where
  callsign : String
  reg : String
  type : String
  position : String
  altitude : String
  groundSpeed : String
  track : String
  trackSuffix : String
  hexId : String
  seenPos : String
  sepChar : String

/-- Literals of `format_aircraft_data` in `airplane_server.py` (lines 49-73);
the emoji markers there are double-encoded mojibake, reproduced here code
point by code point. -/
def stdioLabels : FormatLabels where
  callsign := strOfCodes [0xE2, 0x153, 0x2C6, 0xEF, 0xB8] ++ " Callsign: "
  reg := strOfCodes [0x11F, 0x178, 0x201C, 0x2039] ++ " Registration: "
  type := strOfCodes [0x11F, 0x178, 0x203A, 0xA9, 0xEF, 0xB8] ++ " Type: "
  position := strOfCodes [0x11F, 0x178, 0x201C] ++ " Position: "
  altitude := strOfCodes [0x11F, 0x178, 0x201C] ++ " Altitude: "
  groundSpeed := strOfCodes [0xE2, 0x161, 0xA1] ++ " Ground Speed: "
  track := strOfCodes [0x11F, 0x178, 0xA7, 0xAD] ++ " Track: "
  trackSuffix := strOfCodes [0xC2, 0xB0]
  hexId := strOfCodes [0xEF, 0xBF, 0xBD] ++ " Mode S Hex: "
  seenPos := strOfCodes [0x11F, 0x178, 0x2018, 0xEF, 0xB8] ++ " Last Seen: "
  sepChar := strOfCodes [0xE2, 0x201D, 0x20AC]

/-- Literals of `format_aircraft_data` in `airplane_server_fastmcp.py`
(lines 32-56), which carries well-formed emoji. -/
def fastmcpLabels : FormatLabels where
  callsign := strOfCodes [0x2708, 0xFE0F] ++ " Callsign: "
  reg := strOfCodes [0x1F4CB] ++ " Registration: "
  type := strOfCodes [0x1F6E9, 0xFE0F] ++ " Type: "
  position := strOfCodes [0x1F4CD] ++ " Position: "
  altitude := strOfCodes [0x1F4CF] ++ " Altitude: "
  groundSpeed := strOfCodes [0x26A1] ++ " Ground Speed: "
  track := strOfCodes [0x1F9ED] ++ " Track: "
  trackSuffix := strOfCodes [0xB0]
  hexId := strOfCodes [0x1F522] ++ " Mode S Hex: "
  seenPos := strOfCodes [0x1F441, 0xFE0F] ++ " Last Seen: "
  sepChar := strOfCodes [0x2500]

/-- The `info` list built for one aircraft by the loop body of
`format_aircraft_data` (lines 46-65 of `airplane_server.py`, lines 29-48 of
the FastMCP variant): one line per truthy field, in source order; the
position line is guarded by `is not None` on both coordinates rather than by
truthiness. -/
def format_info (L : FormatLabels) (ac : Aircraft) : List String :=
  (match ac.callsign with
   | some s => if s != "" then [L.callsign ++ pyStrip s] else []
   | none => []) ++
  (match ac.reg with
   | some s => if s != "" then [L.reg ++ s] else []
   | none => []) ++
  (match ac.type with
   | some s => if s != "" then [L.type ++ s] else []
   | none => []) ++
  (match ac.lat, ac.lon with
   | some la, some lo => [L.position ++ fmt4 la ++ ", " ++ fmt4 lo]
   | _, _ => []) ++
  (match ac.alt_baro with
   | some d => if d.man != 0 then [L.altitude ++ pyNumStr d ++ " ft"] else []
   | none => []) ++
  (match ac.gs with
   | some d => if d.man != 0 then [L.groundSpeed ++ pyNumStr d ++ " knots"] else []
   | none => []) ++
  (match ac.track with
   | some d => if d.man != 0 then [L.track ++ pyNumStr d ++ L.trackSuffix] else []
   | none => []) ++
  (match ac.hex with
   | some s => if s != "" then [L.hexId ++ s] else []
   | none => []) ++
  (match ac.seen_pos with
   | some d => if d.man != 0 then [L.seenPos ++ pyNumStr d ++ " seconds ago"] else []
   | none => [])

/-- `format_aircraft_data` applied to a list of aircraft (the `ac` array of
the upstream response).  The `isinstance(..., dict)` normalisation branch of
`airplane_server.py` (lines 35-40) is elided: every tool handler passes
`data.get('ac', [])`, always a list. -/
def format_aircraft_data (L : FormatLabels) (acList : List Aircraft) : String :=
  if acList.isEmpty then "No aircraft found"
  else
    let formatted := acList.filterMap fun ac =>
      let info := format_info L ac
      if info.isEmpty then none else some (String.intercalate "\n" info)
    if formatted.isEmpty then "No aircraft data available"
    else String.intercalate ("\n" ++ String.join (List.replicate 50 L.sepChar) ++ "\n") formatted

example : format_aircraft_data stdioLabels [] = "No aircraft found" := by decide
example : format_aircraft_data fastmcpLabels [] = "No aircraft found" := by decide
example : format_aircraft_data stdioLabels [{}] = "No aircraft data available" := by decide

example :
    format_info stdioLabels
      { callsign := some "RYR123 ", lat := some ⟨511, 1⟩, lon := some ⟨-4, 1⟩,
        hex := some "4ca87c" } =
      [stdioLabels.callsign ++ "RYR123",
       stdioLabels.position ++ "51.1000, -0.4000",
       stdioLabels.hexId ++ "4ca87c"] := by decide

/-! ## The upstream client and the tool handlers -/

/-- The upstream API paths built by the tool handlers and by
`http_wrapper.py`: `f"/hex/{ids}"`, `f"/point/{lat}/{lon}/{radius}"`, ….
The path is represented structurally rather than as the formatted string. -/
inductive Endpoint where
  | hex (ids : String)
  | callsign (ids : String)
  | reg (ids : String)
  | type (code : String)
  | squawk (code : String)
  | point (lat lon radius : Dec)
  | mil
  | ladd
  | pia
deriving DecidableEq, Repr

/-- The upstream client `make_api_request`, abstracted as a function from the
requested endpoint to its outcome: `.ok acList` is the `ac` array of the
parsed JSON body (`data.get('ac', [])` defaults a missing key to `[]`),
`.error msg` is a raised exception whose `str(e)` is `msg`. -/
def ApiClient : Type := Endpoint → Except String (List Aircraft)

/-- Python `dict.get(key, default)` on the `arguments` mapping. -/
def getArg (args : List (String × String)) (key dflt : String) : String :=
  match args.find? (fun p => p.1 == key) with
  | some p => p.2
  | none => dflt

/-- Python `str.upper()` (ASCII; the ICAO type codes are ASCII). -/
def pyUpper (s : String) : String := String.mk (s.data.map Char.toUpper)

/-- Python `str()` of a float value: always shows a decimal point. -/
def pyFloatStr (d : Dec) : String :=
  if d.exp = 0 then pyNumStr d ++ ".0" else pyNumStr d

/-- Mojibake of the cross-mark emoji starting every error text in
`airplane_server.py`. -/
def errMark : String := strOfCodes [0xE2, 0x152]

/-- Mojibake of the magnifier emoji heading the hex/callsign/registration
results. -/
def emFound : String := strOfCodes [0x11F, 0x178, 0x201D]

/-- The replacement-character sequence heading the type/squawk results. -/
def emRepl : String := strOfCodes [0xEF, 0xBF, 0xBD]

/-- Mojibake of the pin emoji heading the near-position results. -/
def emPosition : String := strOfCodes [0x11F, 0x178, 0x201C]

/-- Mojibake of the military-medal emoji. -/
def emMil : String := strOfCodes [0x11F, 0x178, 0x2013, 0xEF, 0xB8]

/-- Mojibake of the helicopter emoji. -/
def emLadd : String := strOfCodes [0x11F, 0x178, 0x161]

/-- Mojibake of the shield emoji. -/
def emPia : String := strOfCodes [0x11F, 0x178, 0x203A, 0xA1, 0xEF, 0xB8]

def errHexRequired : String := errMark ++ " Error: Hex ID is required"
def errCallsignRequired : String := errMark ++ " Error: Callsign is required"
def errRegRequired : String := errMark ++ " Error: Registration is required"
def errTypeRequired : String := errMark ++ " Error: ICAO type code is required"
def errSquawkRequired : String := errMark ++ " Error: Squawk code is required"
def errLatLonRequired : String := errMark ++ " Error: Latitude and longitude are required"
def errLatRange : String := errMark ++ " Error: Latitude must be between -90 and 90"
def errLonRange : String := errMark ++ " Error: Longitude must be between -180 and 180"
def errRadiusMax : String := errMark ++ " Error: Radius cannot exceed 250 nm"
def errRadiusPos : String := errMark ++ " Error: Radius must be positive"

/-- The text of the outer `except Exception` handler of `handle_call_tool`:
`f"... Error: {str(e)}"`. -/
def excText (e : String) : String := errMark ++ " Error: " ++ e

def errUnknownTool (n : String) : String := errMark ++ " Unknown tool: " ++ n

/-- `str(e)` of the `ValueError` raised by `float()` on a malformed string
(Python quotes the offending string with `repr`; the escaping `repr` applies
to exotic characters is not modelled). -/
def errInvalidFloat (s : String) : String :=
  excText ("could not convert string to float: \x27" ++ s ++ "\x27")

/-- `radius_val = float(radius) if radius.strip() else 250` (line 285),
paired with the text `f"{radius_val} nm"` will show for it (the `int` 250
prints without a decimal point, a parsed float with one). -/
def radiusArg (radius : String) : Option (Dec × String) :=
  if pyStrip radius == "" then some (Dec.ofInt 250, "250")
  else (parseFloat radius).map fun d => (d, pyFloatStr d)

/-- The shared shape of every upstream-calling branch of `handle_call_tool`:
request the endpoint and render the `ac` list on success; a raised exception
is caught by the outer `except Exception` of `handle_call_tool` (lines
326-328) and converted to `excText`.  The second component records the
endpoints requested from the Upstream Client. -/
def callApi (api : ApiClient) (ep : Endpoint)
    (render : List Aircraft → String) : String × List Endpoint :=
  match api ep with
  | .ok ac => (render ac, [ep])
  | .error e => (excText e, [ep])

/-- `handle_call_tool` of `airplane_server.py` (lines 217-328): dispatch on
the tool name, validate, call the upstream client, format.  The result is
the text of the single `TextContent` returned, paired with the list of
endpoints requested upstream (empty when validation fails).  A `None`
`arguments` is normalised to `{}` by the caller-side `arguments or {}`
pattern (lines 220-221), which the empty list models. -/
def handle_call_tool (api : ApiClient) (name : String)
    (arguments : List (String × String)) : String × List Endpoint :=
  if name == "aircraft_by_hex" then
    let hex_id := getArg arguments "hex_id" ""
    if pyStrip hex_id == "" then (errHexRequired, [])
    else callApi api (.hex hex_id) fun ac =>
      emFound ++ " Found " ++ natStr ac.length ++ " aircraft:\n\n" ++
        format_aircraft_data stdioLabels ac
  else if name == "aircraft_by_callsign" then
    let callsign := getArg arguments "callsign" ""
    if pyStrip callsign == "" then (errCallsignRequired, [])
    else callApi api (.callsign callsign) fun ac =>
      emFound ++ " Found " ++ natStr ac.length ++ " aircraft:\n\n" ++
        format_aircraft_data stdioLabels ac
  else if name == "aircraft_by_registration" then
    let reg := getArg arguments "reg" ""
    if pyStrip reg == "" then (errRegRequired, [])
    else callApi api (.reg reg) fun ac =>
      emFound ++ " Found " ++ natStr ac.length ++ " aircraft:\n\n" ++
        format_aircraft_data stdioLabels ac
  else if name == "aircraft_by_type" then
    let icao_type := getArg arguments "icao_type" ""
    if pyStrip icao_type == "" then (errTypeRequired, [])
    else callApi api (.type icao_type) fun ac =>
      emRepl ++ " Found " ++ natStr ac.length ++ " aircraft of type " ++
        pyUpper icao_type ++ ":\n\n" ++ format_aircraft_data stdioLabels ac
  else if name == "aircraft_by_squawk" then
    let squawk_code := getArg arguments "squawk_code" ""
    if pyStrip squawk_code == "" then (errSquawkRequired, [])
    else callApi api (.squawk squawk_code) fun ac =>
      emRepl ++ " Found " ++ natStr ac.length ++ " aircraft squawking " ++
        squawk_code ++ ":\n\n" ++ format_aircraft_data stdioLabels ac
  else if name == "aircraft_near_position" then
    let latitude := getArg arguments "latitude" ""
    let longitude := getArg arguments "longitude" ""
    let radius := getArg arguments "radius" "250"
    if pyStrip latitude == "" || pyStrip longitude == "" then (errLatLonRequired, [])
    else
      match parseFloat latitude with
      | none => (errInvalidFloat latitude, [])
      | some lat_val =>
        match parseFloat longitude with
        | none => (errInvalidFloat longitude, [])
        | some lon_val =>
          match radiusArg radius with
          | none => (errInvalidFloat radius, [])
          | some (radius_val, radius_str) =>
            if !(Dec.ble (Dec.ofInt (-90)) lat_val && Dec.ble lat_val (Dec.ofInt 90)) then
              (errLatRange, [])
            else if !(Dec.ble (Dec.ofInt (-180)) lon_val && Dec.ble lon_val (Dec.ofInt 180)) then
              (errLonRange, [])
            else if Dec.blt (Dec.ofInt 250) radius_val then (errRadiusMax, [])
            else if Dec.ble radius_val (Dec.ofInt 0) then (errRadiusPos, [])
            else callApi api (.point lat_val lon_val radius_val) fun ac =>
              emPosition ++ " Found " ++ natStr ac.length ++ " aircraft within " ++
                radius_str ++ " nm of " ++ fmt4 lat_val ++ ", " ++ fmt4 lon_val ++
                ":\n\n" ++ format_aircraft_data stdioLabels ac
  else if name == "military_aircraft" then
    callApi api .mil fun ac =>
      emMil ++ " Found " ++ natStr ac.length ++ " military aircraft:\n\n" ++
        format_aircraft_data stdioLabels ac
  else if name == "ladd_aircraft" then
    callApi api .ladd fun ac =>
      emLadd ++ " Found " ++ natStr ac.length ++ " LADD aircraft:\n\n" ++
        format_aircraft_data stdioLabels ac
  else if name == "pia_aircraft" then
    callApi api .pia fun ac =>
      emPia ++ " Found " ++ natStr ac.length ++ " PIA aircraft:\n\n" ++
        format_aircraft_data stdioLabels ac
  else (errUnknownTool name, [])

/-! ### The FastMCP variant (`airplane_server_fastmcp.py`)

These tool functions have no surrounding try/except (except
`aircraft_near_position`), so a failure of `make_api_request` propagates out
of the tool function; an `Except.error` result models that raised
exception. -/

/-- Cross-mark emoji of the FastMCP error texts. -/
def fmErrMark : String := strOfCodes [0x274C]

/-- Magnifier emoji of the FastMCP found texts. -/
def fmFound : String := strOfCodes [0x1F50D]

def fmErrLatRange : String := fmErrMark ++ " Error: Latitude must be between -90 and 90"
def fmErrLonRange : String := fmErrMark ++ " Error: Longitude must be between -180 and 180"
def fmErrRadiusMax : String := fmErrMark ++ " Error: Radius cannot exceed 250 nm"
def fmErrRadiusPos : String := fmErrMark ++ " Error: Radius must be positive"

/-- `aircraft_by_hex` of `airplane_server_fastmcp.py` (lines 78-90). -/
def mcp_aircraft_by_hex (api : ApiClient) (hex_id : String) :
    Except String (String × List Endpoint) :=
  if pyStrip hex_id == "" then .ok (fmErrMark ++ " Error: Hex ID is required", [])
  else match api (.hex hex_id) with
    | .error e => .error e
    | .ok ac => .ok (fmFound ++ " Found " ++ natStr ac.length ++ " aircraft:\n\n" ++
        format_aircraft_data fastmcpLabels ac, [.hex hex_id])

/-- `military_aircraft` of `airplane_server_fastmcp.py` (lines 178-184): no
validation, no exception handling. -/
def mcp_military_aircraft (api : ApiClient) :
    Except String (String × List Endpoint) :=
  match api .mil with
  | .error e => .error e
  | .ok ac => .ok (strOfCodes [0x1F396, 0xFE0F] ++ " Found " ++ natStr ac.length ++
      " military aircraft:\n\n" ++ format_aircraft_data fastmcpLabels ac, [Endpoint.mil])

/-- `aircraft_near_position` of `airplane_server_fastmcp.py` (lines 152-176):
arguments arrive as floats, the whole body is wrapped in
`try ... except Exception`, so the function always returns text.
(`f"{radius} nm"` is rendered with `pyNumStr`, matching the integer default;
no verified property reads that fragment.) -/
def mcp_aircraft_near_position (api : ApiClient) (latitude longitude : Dec)
    (radius : Dec := Dec.ofInt 250) : String × List Endpoint :=
  if !(Dec.ble (Dec.ofInt (-90)) latitude && Dec.ble latitude (Dec.ofInt 90)) then
    (fmErrLatRange, [])
  else if !(Dec.ble (Dec.ofInt (-180)) longitude && Dec.ble longitude (Dec.ofInt 180)) then
    (fmErrLonRange, [])
  else if Dec.blt (Dec.ofInt 250) radius then (fmErrRadiusMax, [])
  else if Dec.ble radius (Dec.ofInt 0) then (fmErrRadiusPos, [])
  else match api (.point latitude longitude radius) with
    | .error e => (fmErrMark ++ " Error: " ++ e, [.point latitude longitude radius])
    | .ok ac => (strOfCodes [0x1F4CD] ++ " Found " ++ natStr ac.length ++
        " aircraft within " ++ pyNumStr radius ++ " nm of " ++ fmt4 latitude ++ ", " ++
        fmt4 longitude ++ ":\n\n" ++ format_aircraft_data fastmcpLabels ac,
        [.point latitude longitude radius])

/-! ## `http_wrapper.py`: the direct HTTP facade -/

/-- `HTTPException(status_code, detail)` as raised by the facade and by
`geocode_city`. -/
structure HTTPExc where
  status_code : Nat
  detail : String
deriving DecidableEq, Repr

/-- `POST /aircraft/hex` (lines 43-50 of `http_wrapper.py`): forward the
query to `airplane_server.make_api_request` and return its raw JSON body;
any exception becomes `HTTPException(502, str(e))`.  The facade passes the
body through untouched, so the upstream client is abstracted over an
arbitrary body type `α` here. -/
def http_aircraft_by_hex {α : Type} (api : Endpoint → Except String α)
    (hex_id : String) : Except HTTPExc α :=
  match api (.hex hex_id) with
  | .ok d => .ok d
  | .error e => .error ⟨502, e⟩

/-- `POST /aircraft/callsign` (lines 53-60). -/
def http_aircraft_by_callsign {α : Type} (api : Endpoint → Except String α)
    (callsign : String) : Except HTTPExc α :=
  match api (.callsign callsign) with
  | .ok d => .ok d
  | .error e => .error ⟨502, e⟩

/-- `POST /aircraft/reg` (lines 63-70). -/
def http_aircraft_by_reg {α : Type} (api : Endpoint → Except String α)
    (reg : String) : Except HTTPExc α :=
  match api (.reg reg) with
  | .ok d => .ok d
  | .error e => .error ⟨502, e⟩

/-- `POST /aircraft/type` (lines 73-80). -/
def http_aircraft_by_type {α : Type} (api : Endpoint → Except String α)
    (icao_type : String) : Except HTTPExc α :=
  match api (.type icao_type) with
  | .ok d => .ok d
  | .error e => .error ⟨502, e⟩

/-- `POST /aircraft/squawk` (lines 83-90). -/
def http_aircraft_by_squawk {α : Type} (api : Endpoint → Except String α)
    (squawk_code : String) : Except HTTPExc α :=
  match api (.squawk squawk_code) with
  | .ok d => .ok d
  | .error e => .error ⟨502, e⟩

/-- `POST /aircraft/point` (lines 93-100); the body's `radius` defaults to
250.0. -/
def http_aircraft_by_point {α : Type} (api : Endpoint → Except String α)
    (latitude longitude : Dec) (radius : Dec := ⟨2500, 1⟩) : Except HTTPExc α :=
  match api (.point latitude longitude radius) with
  | .ok d => .ok d
  | .error e => .error ⟨502, e⟩

/-! ## `sse_wrapper.py`: geocoding and the city endpoint -/

/-- One entry of the Nominatim response array, its `lat`/`lon` strings
already put through `float()`. -/
structure GeoEntry where
  lat : Dec
  lon : Dec
deriving DecidableEq, Repr

/-- Outcome of the geocoding HTTP exchange inside `geocode_city`: the parsed
JSON array, or an `httpx.HTTPError` with message `msg` (raised by
`client.get`, `raise_for_status` or `response.json`). -/
inductive GeoOutcome where
  | ok (entries : List GeoEntry)
  | httpError (msg : String)
deriving Repr

/-- `geocode_city` (lines 30-55 of `sse_wrapper.py`): an empty result array
raises `HTTPException(404, f"City '{city_name}' not found")`; an
`httpx.HTTPError` is converted to `HTTPException(500, ...)`; otherwise the
first entry's coordinates are returned. -/
def geocode_city (outcome : GeoOutcome) (city_name : String) :
    Except HTTPExc (Dec × Dec) :=
  match outcome with
  | .httpError e => .error ⟨500, "Geocoding error: " ++ e⟩
  | .ok [] => .error ⟨404, "City \x27" ++ city_name ++ "\x27 not found"⟩
  | .ok (e0 :: _) => .ok (e0.lat, e0.lon)

/-- The JSON-RPC response dict the bridge returns for the tool call in
`get_aircraft_near_city`, observed only through membership of a `"result"`
key (line 453). -/
structure ToolReply where
  hasResultField : Bool
deriving DecidableEq, Repr

/-- What `GET /api/aircraft/near/city/{city_name}` returns: the (possibly
geocoding-annotated) bridge response, or the `{"error": detail}` body built
by the `except HTTPException` handler. -/
inductive CityResult where
  | reply (r : ToolReply) (geocoding : Option (String × Dec × Dec))
  | errBody (detail : String)
deriving DecidableEq, Repr

/-- `get_aircraft_near_city` (lines 429-464): geocode the name, call the
`aircraft_near_position` tool through the bridge with the resolved
coordinates, and attach the geocoding metadata when the response has a
`"result"` field; an `HTTPException` from geocoding is caught and returned
as `{"error": e.detail}`.  The second component counts bridge tool calls
(and hence aircraft-API requests), zero when geocoding fails. -/
def get_aircraft_near_city (callTool : Dec → Dec → Nat → ToolReply)
    (geo : GeoOutcome) (city_name : String) (radius : Nat := 50) :
    CityResult × Nat :=
  match geocode_city geo city_name with
  | .error e => (.errBody e.detail, 0)
  | .ok (lat, lon) =>
    let result := callTool lat lon radius
    (.reply result (if result.hasResultField then some (city_name, lat, lon) else none), 1)

/-! ## The stdio JSON-RPC bridge (`MCPStdioWrapper`, lines 59-165) -/

/-- The child process handle; only its `returncode` is observed (`None`
while the process runs). -/
structure ChildProc where
  returncode : Option Int
deriving DecidableEq, Repr

/-- The mutable fields set up by `MCPStdioWrapper.__init__` (lines 60-63). -/
structure BridgeState where
  process : Option ChildProc
  request_id : Nat
  initialized : Bool
deriving DecidableEq, Repr

/-- `__init__`: no process, id counter 0, not initialized. -/
def BridgeState.init : BridgeState := ⟨none, 0, false⟩

/-- The params payload attached to an outgoing JSON-RPC request, represented
structurally: `initBody` is the fixed handshake payload (protocolVersion
"2024-11-05", empty capabilities, sse-wrapper clientInfo — lines 119-126),
`callBody` the `tools/call` payload, `dict` any other mapping. -/
inductive JsonBody where
  | initBody
  | callBody (name : String) (arguments : List (String × String))
  | dict (fields : List (String × String))
deriving DecidableEq, Repr

/-- Python truthiness of the `params` argument (`if params:` at line 98):
`None` and the empty dict are falsy and keep the request without a `params`
key. -/
def truthyParams : Option JsonBody → Option JsonBody
  | none => none
  | some (.dict []) => none
  | some b => some b

/-- One line written to the child's stdin: a JSON-RPC request (with an `id`)
or a notification (without one). -/
inductive Sent where
  | request (id : Nat) (method : String) (params : Option JsonBody)
  | notification (method : String)
deriving DecidableEq, Repr

/-- A bridge session with its observable I/O history: the lines written to
the child's stdin, in order, and how many lines were read from its
stdout. -/
structure BridgeWorld where
  st : BridgeState
  sent : List Sent
  reads : Nat
deriving DecidableEq, Repr

/-- A freshly constructed wrapper: nothing spawned, nothing exchanged. -/
def freshWorld : BridgeWorld := ⟨BridgeState.init, [], 0⟩

/-- `start_mcp_server` (lines 65-77): spawn a new child process (alive, so
its `returncode` is `None`) and store its handle. -/
def start_mcp_server (s : BridgeState) : BridgeState :=
  { s with process := some ⟨none⟩ }

/-- `MCPStdioWrapper.initialize` (lines 112-148): allocate the next request
id, write the `initialize` request, read one response line, then write the
`notifications/initialized` notification.  The parsed response is returned
to `send_request`, which discards it, so it is not modelled. -/
def initialize_step (w : BridgeWorld) : BridgeWorld :=
  let rid := w.st.request_id + 1
  { st := { w.st with request_id := rid }
    sent := w.sent ++ [.request rid "initialize" (some .initBody),
                       .notification "notifications/initialized"]
    reads := w.reads + 1 }

/-- `send_request` (lines 79-110): if the process is absent or has exited,
respawn it and clear `initialized`; if not initialized, run the handshake
and set the flag; then allocate the next id, write the request (attaching
`params` only when truthy) and read exactly one response line.  The first
component is the index of the stdout line whose parsed JSON is returned to
the caller. -/
def send_request (w : BridgeWorld) (method : String) (params : Option JsonBody) :
    Nat × BridgeWorld :=
  let w1 := if w.st.process.all (fun p => p.returncode.isSome)
            then { w with st := { start_mcp_server w.st with initialized := false } }
            else w
  let w2 := if w1.st.initialized then w1
            else let wi := initialize_step w1
                 { wi with st := { wi.st with initialized := true } }
  let rid := w2.st.request_id + 1
  (w2.reads,
   { st := { w2.st with request_id := rid }
     sent := w2.sent ++ [.request rid method (truthyParams params)]
     reads := w2.reads + 1 })

/-- `call_tool` (lines 150-155). -/
def call_tool (w : BridgeWorld) (tool_name : String)
    (arguments : List (String × String)) : Nat × BridgeWorld :=
  send_request w "tools/call" (some (.callBody tool_name arguments))

/-- `list_tools` (lines 157-159). -/
def list_tools (w : BridgeWorld) : Nat × BridgeWorld :=
  send_request w "tools/list" none

/-- The events a bridge session observes: a caller invoking `send_request`,
or the child process dying externally (its `returncode` becoming set). -/
inductive BridgeEvent where
  | call (method : String) (params : Option JsonBody)
  | kill (code : Int)
deriving Repr

def stepEvent (w : BridgeWorld) : BridgeEvent → BridgeWorld
  | .call m p => (send_request w m p).2
  | .kill c => { w with st := { w.st with process := w.st.process.map fun _ => ⟨some c⟩ } }

def runEvents (w : BridgeWorld) : List BridgeEvent → BridgeWorld
  | [] => w
  | e :: es => runEvents (stepEvent w e) es

/-- `true` exactly on an `initialize` request line. -/
def Sent.isInitRequest : Sent → Bool
  | .request _ m _ => m == "initialize"
  | _ => false

/-- `true` exactly on a `notifications/initialized` line. -/
def Sent.isInitNotification : Sent → Bool
  | .notification m => m == "notifications/initialized"
  | _ => false

/-- The ids of the requests in a trace (notifications carry no id). -/
def sentIds (l : List Sent) : List Nat :=
  l.filterMap fun m => match m with
    | .request i _ _ => some i
    | .notification _ => none

/-- The ids of the caller (non-handshake) requests in a trace. -/
def callIds (l : List Sent) : List Nat :=
  l.filterMap fun m => match m with
    | .request i mth _ => if mth == "initialize" then none else some i
    | .notification _ => none

example :
    send_request freshWorld "tools/list" none =
      (1, ⟨⟨some ⟨none⟩, 2, true⟩,
           [.request 1 "initialize" (some .initBody),
            .notification "notifications/initialized",
            .request 2 "tools/list" none], 2⟩) := by decide

/-! ### Bridge lemmas -/

/-- The events issued by a list of sequential `send_request` invocations. -/
def mkCalls (ms : List (String × Option JsonBody)) : List BridgeEvent :=
  ms.map fun c => .call c.1 c.2

/-- In the steady state (live child, `initialized` set), `send_request`
writes exactly one request line and reads exactly one line. -/
theorem send_request_steady (w : BridgeWorld) (m : String) (p : Option JsonBody)
    (hp : w.st.process = some ⟨none⟩) (hi : w.st.initialized = true) :
    send_request w m p =
      (w.reads,
       { st := { w.st with request_id := w.st.request_id + 1 }
         sent := w.sent ++ [.request (w.st.request_id + 1) m (truthyParams p)]
         reads := w.reads + 1 }) := by
  unfold send_request
  simp [hp, hi, Option.all]

/-- Every `send_request` appends either just the caller's request line, or
the two handshake lines followed by the caller's request line; the id
counter advances accordingly. -/
theorem send_request_shape (w : BridgeWorld) (m : String) (p : Option JsonBody) :
    ((send_request w m p).2.sent =
        w.sent ++ [.request (w.st.request_id + 1) m (truthyParams p)] ∧
     (send_request w m p).2.st.request_id = w.st.request_id + 1) ∨
    ((send_request w m p).2.sent =
        w.sent ++ [.request (w.st.request_id + 1) "initialize" (some .initBody),
                   .notification "notifications/initialized",
                   .request (w.st.request_id + 2) m (truthyParams p)] ∧
     (send_request w m p).2.st.request_id = w.st.request_id + 2) := by
  unfold send_request
  split_ifs with h1
  · right
    simp [initialize_step, start_mcp_server]
  · by_cases h2 : w.st.initialized = true
    · left
      simp [h2]
    · right
      simp [h2, initialize_step]

/-- `runEvents` only ever appends to the trace of sent lines. -/
theorem runEvents_sent_prefix (evs : List BridgeEvent) (w : BridgeWorld) :
    ∃ t, (runEvents w evs).sent = w.sent ++ t := by
  induction evs generalizing w with
  | nil => exact ⟨[], by simp [runEvents]⟩
  | cons e es ih =>
    rcases e with ⟨m, p⟩ | c
    · obtain ⟨t, ht⟩ := ih (stepEvent w (.call m p))
      rcases send_request_shape w m p with ⟨hs, _⟩ | ⟨hs, _⟩
      · exact ⟨_, by rw [runEvents, ht, stepEvent, hs, List.append_assoc]⟩
      · exact ⟨_, by rw [runEvents, ht, stepEvent, hs, List.append_assoc]⟩
    · obtain ⟨t, ht⟩ := ih (stepEvent w (.kill c))
      exact ⟨t, by rw [runEvents]; exact ht⟩

/-- Steady-state runs of sequential calls only append plain caller request
lines and preserve the steady state. -/
theorem runEvents_calls_steady (ms : List (String × Option JsonBody)) (w : BridgeWorld)
    (hp : w.st.process = some ⟨none⟩) (hi : w.st.initialized = true)
    (hm : ∀ c ∈ ms, c.1 ≠ "initialize") :
    ∃ extra : List Sent,
      (runEvents w (mkCalls ms)).sent = w.sent ++ extra ∧
      (∀ x ∈ extra, x.isInitRequest = false ∧ x.isInitNotification = false) ∧
      (runEvents w (mkCalls ms)).st.process = some ⟨none⟩ ∧
      (runEvents w (mkCalls ms)).st.initialized = true := by
  induction ms generalizing w with
  | nil =>
    exact ⟨[], by simp [mkCalls, runEvents, hp, hi]⟩
  | cons c ms ih =>
    have hw' := send_request_steady w c.1 c.2 hp hi
    have hstep : stepEvent w (.call c.1 c.2) = (send_request w c.1 c.2).2 := rfl
    obtain ⟨extra, hsent, hclean, hp', hi'⟩ :=
      ih ((send_request w c.1 c.2).2) (by rw [hw']; exact hp) (by rw [hw']; exact hi)
        (fun d hd => hm d (List.mem_cons_of_mem _ hd))
    refine ⟨Sent.request (w.st.request_id + 1) c.1 (truthyParams c.2) :: extra, ?_, ?_, ?_, ?_⟩
    · have : (runEvents w (mkCalls (c :: ms))).sent =
          (runEvents ((send_request w c.1 c.2).2) (mkCalls ms)).sent := by
        simp [mkCalls, runEvents, hstep]
      rw [this, hsent, hw']
      simp
    · intro x hx
      rcases List.mem_cons.1 hx with rfl | hx'
      · constructor
        · simp [Sent.isInitRequest]
          exact hm c (List.mem_cons_self _ _)
        · simp [Sent.isInitNotification]
      · exact hclean x hx'
    · have : (runEvents w (mkCalls (c :: ms))) =
          runEvents ((send_request w c.1 c.2).2) (mkCalls ms) := by
        simp [mkCalls, runEvents, hstep]
      rw [this]; exact hp'
    · have : (runEvents w (mkCalls (c :: ms))) =
          runEvents ((send_request w c.1 c.2).2) (mkCalls ms) := by
        simp [mkCalls, runEvents, hstep]
      rw [this]; exact hi'

theorem sentIds_append (a b : List Sent) :
    sentIds (a ++ b) = sentIds a ++ sentIds b :=
  List.filterMap_append a b _

theorem callIds_append (a b : List Sent) :
    callIds (a ++ b) = callIds a ++ callIds b :=
  List.filterMap_append a b _

theorem pairwise_ids_append {l new : List Nat} {bound : Nat}
    (hb : ∀ i ∈ l, i ≤ bound) (hp : List.Pairwise (· < ·) l)
    (hnew : List.Pairwise (· < ·) new) (hgt : ∀ j ∈ new, bound < j) :
    List.Pairwise (· < ·) (l ++ new) := by
  rw [List.pairwise_append]
  exact ⟨hp, hnew, fun a ha b hb' => lt_of_le_of_lt (hb a ha) (hgt b hb')⟩

/-- Along any run, every request id stays bounded by the session's counter
and the ids in the trace are strictly increasing. -/
theorem runEvents_ids_invariant (evs : List BridgeEvent) (w : BridgeWorld)
    (hb : ∀ i ∈ sentIds w.sent, i ≤ w.st.request_id)
    (hp : List.Pairwise (· < ·) (sentIds w.sent)) :
    (∀ i ∈ sentIds (runEvents w evs).sent, i ≤ (runEvents w evs).st.request_id) ∧
    List.Pairwise (· < ·) (sentIds (runEvents w evs).sent) := by
  induction evs generalizing w with
  | nil => exact ⟨hb, hp⟩
  | cons e es ih =>
    rcases e with ⟨m, p⟩ | c
    · have hrw : runEvents w (.call m p :: es) =
          runEvents ((send_request w m p).2) es := rfl
      rw [hrw]
      rcases send_request_shape w m p with ⟨hs, hr⟩ | ⟨hs, hr⟩
      · apply ih
        · intro i hi
          rw [hs, sentIds_append] at hi
          rw [hr]
          rcases List.mem_append.1 hi with h | h
          · exact le_trans (hb i h) (Nat.le_succ _)
          · simp only [sentIds, List.filterMap] at h
            simp at h
            omega
        · rw [hs, sentIds_append]
          apply pairwise_ids_append hb hp
          · simp [sentIds]
          · intro j hj
            simp [sentIds] at hj
            omega
      · apply ih
        · intro i hi
          rw [hs, sentIds_append] at hi
          rw [hr]
          rcases List.mem_append.1 hi with h | h
          · exact le_trans (hb i h) (by omega)
          · simp [sentIds] at h
            omega
        · rw [hs, sentIds_append]
          apply pairwise_ids_append hb hp
          · simp [sentIds]
          · intro j hj
            simp [sentIds] at hj
            omega
    · have hrw : runEvents w (.kill c :: es) =
          runEvents (stepEvent w (.kill c)) es := rfl
      rw [hrw]
      exact ih (stepEvent w (.kill c)) hb hp

/-! ### C1, C2, C3: the bridge claims -/

/-- **C1.** For every freshly constructed bridge session, across N ≥ 1
sequential `send_request`/`call` invocations (of real methods, i.e. not the
handshake method itself), the bridge writes exactly one `initialize` request
and exactly one `notifications/initialized` notification to the child
process, both before the first real method, and never re-sends them while
the same child process is alive and the `initialized` flag is true. -/
theorem c1_handshake_once (ms : List (String × Option JsonBody)) (hne : ms ≠ [])
    (hm : ∀ c ∈ ms, c.1 ≠ "initialize") :
    ∃ rest : List Sent,
      (runEvents freshWorld (mkCalls ms)).sent =
        Sent.request 1 "initialize" (some .initBody) ::
          Sent.notification "notifications/initialized" :: rest ∧
      (∀ x ∈ rest, x.isInitRequest = false ∧ x.isInitNotification = false) ∧
      ((runEvents freshWorld (mkCalls ms)).sent.countP (·.isInitRequest)) = 1 ∧
      ((runEvents freshWorld (mkCalls ms)).sent.countP (·.isInitNotification)) = 1 := by
  obtain ⟨c, ms', rfl⟩ := List.exists_cons_of_ne_nil hne
  have h1 : stepEvent freshWorld (.call c.1 c.2) =
      ⟨⟨some ⟨none⟩, 2, true⟩,
       [.request 1 "initialize" (some .initBody),
        .notification "notifications/initialized",
        .request 2 c.1 (truthyParams c.2)], 2⟩ := rfl
  have hrun : runEvents freshWorld (mkCalls (c :: ms')) =
      runEvents (stepEvent freshWorld (.call c.1 c.2)) (mkCalls ms') := rfl
  obtain ⟨extra, hsent, hclean, _, _⟩ :=
    runEvents_calls_steady ms' (stepEvent freshWorld (.call c.1 c.2))
      (by rw [h1]) (by rw [h1]) (fun d hd => hm d (List.mem_cons_of_mem _ hd))
  have hfull : (runEvents freshWorld (mkCalls (c :: ms'))).sent =
      Sent.request 1 "initialize" (some .initBody) ::
        Sent.notification "notifications/initialized" ::
          (Sent.request 2 c.1 (truthyParams c.2) :: extra) := by
    rw [hrun, hsent, h1]
    simp
  have hrest : ∀ x ∈ (Sent.request 2 c.1 (truthyParams c.2) :: extra),
      x.isInitRequest = false ∧ x.isInitNotification = false := by
    intro x hx
    rcases List.mem_cons.1 hx with rfl | hx'
    · refine ⟨?_, by simp [Sent.isInitNotification]⟩
      simp [Sent.isInitRequest]
      exact hm c (List.mem_cons_self _ _)
    · exact hclean x hx'
  refine ⟨Sent.request 2 c.1 (truthyParams c.2) :: extra, hfull, hrest, ?_, ?_⟩
  · rw [hfull]
    rw [List.countP_cons, List.countP_cons]
    have hz : (Sent.request 2 c.1 (truthyParams c.2) :: extra).countP (·.isInitRequest) = 0 :=
      List.countP_eq_zero.2 (fun x hx => by simp [(hrest x hx).1])
    rw [hz]
    simp [Sent.isInitRequest, Sent.isInitNotification]
  · rw [hfull]
    rw [List.countP_cons, List.countP_cons]
    have hz : (Sent.request 2 c.1 (truthyParams c.2) :: extra).countP (·.isInitNotification) = 0 :=
      List.countP_eq_zero.2 (fun x hx => by simp [(hrest x hx).2])
    rw [hz]
    simp [Sent.isInitRequest, Sent.isInitNotification]

/-- Concrete two-call session used to witness C1. -/
def c1calls : List (String × Option JsonBody) :=
  [("tools/list", none),
   ("tools/call", some (.callBody "aircraft_by_hex" [("hex_id", "4CA87C")]))]

theorem c1_handshake_once_witness :
    c1calls ≠ [] ∧ (∀ c ∈ c1calls, c.1 ≠ "initialize") ∧
    ∃ rest : List Sent,
      (runEvents freshWorld (mkCalls c1calls)).sent =
        Sent.request 1 "initialize" (some .initBody) ::
          Sent.notification "notifications/initialized" :: rest ∧
      (∀ x ∈ rest, x.isInitRequest = false ∧ x.isInitNotification = false) ∧
      ((runEvents freshWorld (mkCalls c1calls)).sent.countP (·.isInitRequest)) = 1 ∧
      ((runEvents freshWorld (mkCalls c1calls)).sent.countP (·.isInitNotification)) = 1 :=
  ⟨by decide, by decide, c1_handshake_once c1calls (by decide) (by decide)⟩

/-- **C2** counterexample: on a freshly constructed bridge, the one (first)
`call` of the session does not carry request id 1 — the trace shows the
handshake request takes id 1 and the first caller request takes id 2. -/
theorem c2_first_call_id_counterexample :
    (runEvents freshWorld [.call "tools/list" none]).sent =
      [.request 1 "initialize" (some .initBody),
       .notification "notifications/initialized",
       .request 2 "tools/list" none] ∧
    callIds (runEvents freshWorld [.call "tools/list" none]).sent = [2] ∧
    ¬ callIds (runEvents freshWorld [.call "tools/list" none]).sent = [1] :=
  ⟨by decide, by decide, by decide⟩

/-- **C2** (amended). For every bridge session, each `call()` allocates a
request id strictly greater than every id previously sent in that session
(the ids in the trace are strictly increasing, across respawns too), but the
first `call()` of a session carries request id 2: the `initialize` handshake
request consumes id 1. -/
theorem c2_request_ids_increasing :
    (∀ evs : List BridgeEvent,
      List.Pairwise (· < ·) (sentIds (runEvents freshWorld evs).sent)) ∧
    (∀ (m : String) (p : Option JsonBody) (evs : List BridgeEvent),
      m ≠ "initialize" →
      (callIds (runEvents freshWorld (.call m p :: evs)).sent).head? = some 2) := by
  constructor
  · intro evs
    exact (runEvents_ids_invariant evs freshWorld (by simp [freshWorld, sentIds])
      (by simp [freshWorld, sentIds])).2
  · intro m p evs hm
    have h1 : stepEvent freshWorld (.call m p) =
        ⟨⟨some ⟨none⟩, 2, true⟩,
         [.request 1 "initialize" (some .initBody),
          .notification "notifications/initialized",
          .request 2 m (truthyParams p)], 2⟩ := rfl
    obtain ⟨t, ht⟩ := runEvents_sent_prefix evs (stepEvent freshWorld (.call m p))
    have hfull : (runEvents freshWorld (.call m p :: evs)).sent =
        [Sent.request 1 "initialize" (some .initBody),
         Sent.notification "notifications/initialized",
         Sent.request 2 m (truthyParams p)] ++ t := by
      have hrw : runEvents freshWorld (.call m p :: evs) =
          runEvents (stepEvent freshWorld (.call m p)) evs := rfl
      rw [hrw, ht, h1]
    rw [hfull, callIds_append]
    simp [callIds, hm]

theorem c2_request_ids_increasing_witness :
    ("tools/call" : String) ≠ "initialize" ∧
    List.Pairwise (· < ·)
      (sentIds (runEvents freshWorld [.call "tools/list" none, .kill 1,
        .call "tools/call" none]).sent) ∧
    (callIds (runEvents freshWorld
        (.call "tools/call" (some (.callBody "military_aircraft" [])) ::
          [.call "tools/list" none])).sent).head? = some 2 :=
  ⟨by decide,
   c2_request_ids_increasing.1 [.call "tools/list" none, .kill 1, .call "tools/call" none],
   c2_request_ids_increasing.2 "tools/call" (some (.callBody "military_aircraft" []))
     [.call "tools/list" none] (by decide)⟩

/-- **C3.** For every bridge session whose child process has exited (its
return code is non-null) at the time of the next `send_request`/`call`, the
bridge spawns a new (live) child process, re-runs the `initialize` handshake
before writing the caller's request, and the caller receives the next
response line normally (index `reads + 1`, the line after the handshake's),
not an error.  (The transient reset of the `initialized` flag is visible
here as the re-sent handshake; the flag ends the call set to `true`.) -/
theorem c3_respawn_transparent (w : BridgeWorld) (m : String) (p : Option JsonBody)
    (pr : ChildProc) (hp : w.st.process = some pr) (hd : pr.returncode.isSome = true) :
    send_request w m p =
      (w.reads + 1,
       ⟨⟨some ⟨none⟩, w.st.request_id + 2, true⟩,
        w.sent ++ [.request (w.st.request_id + 1) "initialize" (some .initBody),
                   .notification "notifications/initialized",
                   .request (w.st.request_id + 2) m (truthyParams p)],
        w.reads + 2⟩) := by
  unfold send_request
  simp [hp, hd, initialize_step, start_mcp_server]

/-- A session whose child was killed externally after a first call. -/
def deadWorld : BridgeWorld := runEvents freshWorld [.call "tools/list" none, .kill 137]

theorem c3_respawn_transparent_witness :
    deadWorld.st.process = some ⟨some 137⟩ ∧
    (ChildProc.returncode ⟨some 137⟩).isSome = true ∧
    send_request deadWorld "tools/call" (some (.callBody "military_aircraft" [])) =
      (deadWorld.reads + 1,
       ⟨⟨some ⟨none⟩, deadWorld.st.request_id + 2, true⟩,
        deadWorld.sent ++
          [.request (deadWorld.st.request_id + 1) "initialize" (some .initBody),
           .notification "notifications/initialized",
           .request (deadWorld.st.request_id + 2) "tools/call"
             (truthyParams (some (.callBody "military_aircraft" [])))],
        deadWorld.reads + 2⟩) :=
  ⟨by decide, by decide,
   c3_respawn_transparent deadWorld "tools/call" (some (.callBody "military_aircraft" []))
     ⟨some 137⟩ (by decide) (by decide)⟩

/-! ### Helper lemmas for the tool-handler claims -/

theorem Dec.toRat_mk_int (i : Int) : (Dec.mk i 0).toRat = (i : ℚ) := by
  simp [Dec.toRat]

theorem Dec.ble_eq_false (a b : Dec) : a.ble b = false ↔ b.toRat < a.toRat := by
  rw [← not_le, ← Dec.ble_iff]
  cases h : a.ble b <;> simp

theorem Dec.blt_eq_false (a b : Dec) : a.blt b = false ↔ b.toRat ≤ a.toRat := by
  rw [← not_lt, ← Dec.blt_iff]
  cases h : a.blt b <;> simp

theorem strip_beq_false_of_parse {s : String} {d : Dec}
    (h : parseFloat s = some d) : (pyStrip s == "") = false := by
  rw [beq_eq_false_iff_ne]
  exact strip_ne_empty_of_parseFloat h

/-- The endpoint list of an upstream-calling branch is that endpoint alone,
whatever the client answers. -/
theorem callApi_snd (api : ApiClient) (ep : Endpoint)
    (render : List Aircraft → String) : (callApi api ep render).2 = [ep] := by
  unfold callApi
  cases api ep <;> rfl

/-! ### C4: blank required arguments -/

/-- **C4.** For every tool invocation whose required string argument is
empty or whitespace-only (hex_id, callsign, reg, icao_type, squawk_code,
latitude, longitude), the handler returns the corresponding
validation-error text and never invokes the upstream client (no endpoint is
requested); the FastMCP `aircraft_by_hex` behaves the same. -/
theorem c4_blank_arguments (api : ApiClient) (s : String) (hs : pyStrip s = "") :
    handle_call_tool api "aircraft_by_hex" [("hex_id", s)] = (errHexRequired, []) ∧
    handle_call_tool api "aircraft_by_callsign" [("callsign", s)] =
      (errCallsignRequired, []) ∧
    handle_call_tool api "aircraft_by_registration" [("reg", s)] =
      (errRegRequired, []) ∧
    handle_call_tool api "aircraft_by_type" [("icao_type", s)] =
      (errTypeRequired, []) ∧
    handle_call_tool api "aircraft_by_squawk" [("squawk_code", s)] =
      (errSquawkRequired, []) ∧
    handle_call_tool api "aircraft_near_position"
      [("latitude", s), ("longitude", "10"), ("radius", "50")] =
      (errLatLonRequired, []) ∧
    handle_call_tool api "aircraft_near_position"
      [("latitude", "10"), ("longitude", s), ("radius", "50")] =
      (errLatLonRequired, []) ∧
    mcp_aircraft_by_hex api s = .ok (fmErrMark ++ " Error: Hex ID is required", []) := by
  refine ⟨?_, ?_, ?_, ?_, ?_, ?_, ?_, ?_⟩ <;>
    simp [handle_call_tool, mcp_aircraft_by_hex, getArg, hs]

theorem c4_blank_arguments_witness :
    pyStrip "  " = "" ∧
    (handle_call_tool (fun _ => .error "down") "aircraft_by_hex" [("hex_id", "  ")] =
        (errHexRequired, []) ∧
      handle_call_tool (fun _ => .error "down") "aircraft_by_callsign"
        [("callsign", "  ")] = (errCallsignRequired, []) ∧
      handle_call_tool (fun _ => .error "down") "aircraft_by_registration"
        [("reg", "  ")] = (errRegRequired, []) ∧
      handle_call_tool (fun _ => .error "down") "aircraft_by_type"
        [("icao_type", "  ")] = (errTypeRequired, []) ∧
      handle_call_tool (fun _ => .error "down") "aircraft_by_squawk"
        [("squawk_code", "  ")] = (errSquawkRequired, []) ∧
      handle_call_tool (fun _ => .error "down") "aircraft_near_position"
        [("latitude", "  "), ("longitude", "10"), ("radius", "50")] =
        (errLatLonRequired, []) ∧
      handle_call_tool (fun _ => .error "down") "aircraft_near_position"
        [("latitude", "10"), ("longitude", "  "), ("radius", "50")] =
        (errLatLonRequired, []) ∧
      mcp_aircraft_by_hex (fun _ => .error "down") "  " =
        .ok (fmErrMark ++ " Error: Hex ID is required", [])) :=
  ⟨by decide, c4_blank_arguments (fun _ => .error "down") "  " (by decide)⟩

/-! ### C5: `aircraft_near_position` validation -/

theorem Dec.toRat_ofInt (i : Int) : (Dec.ofInt i).toRat = (i : ℚ) :=
  Dec.toRat_mk_int i

/-- **C5.** For `aircraft_near_position`: every input whose latitude is
outside [-90, 90], or (latitude in range) longitude outside [-180, 180], or
(both in range) radius above 250 or not positive, returns its distinct,
deterministic error message and requests no upstream endpoint; the boundary
values latitude 90, longitude -180, radius 250 pass validation and proceed
to the upstream `point` request.  Both the stdio handler (string arguments,
`float()`-parsed) and the FastMCP variant (float arguments) are covered. -/
theorem c5_near_position_validation :
    (∀ (api : ApiClient) (slat slon srad : String) (qlat qlon qrad : Dec),
      parseFloat slat = some qlat → parseFloat slon = some qlon →
      parseFloat srad = some qrad →
      (qlat.toRat < -90 ∨ 90 < qlat.toRat) →
      handle_call_tool api "aircraft_near_position"
        [("latitude", slat), ("longitude", slon), ("radius", srad)] =
        (errLatRange, [])) ∧
    (∀ (api : ApiClient) (slat slon srad : String) (qlat qlon qrad : Dec),
      parseFloat slat = some qlat → parseFloat slon = some qlon →
      parseFloat srad = some qrad →
      -90 ≤ qlat.toRat → qlat.toRat ≤ 90 →
      (qlon.toRat < -180 ∨ 180 < qlon.toRat) →
      handle_call_tool api "aircraft_near_position"
        [("latitude", slat), ("longitude", slon), ("radius", srad)] =
        (errLonRange, [])) ∧
    (∀ (api : ApiClient) (slat slon srad : String) (qlat qlon qrad : Dec),
      parseFloat slat = some qlat → parseFloat slon = some qlon →
      parseFloat srad = some qrad →
      -90 ≤ qlat.toRat → qlat.toRat ≤ 90 →
      -180 ≤ qlon.toRat → qlon.toRat ≤ 180 →
      250 < qrad.toRat →
      handle_call_tool api "aircraft_near_position"
        [("latitude", slat), ("longitude", slon), ("radius", srad)] =
        (errRadiusMax, [])) ∧
    (∀ (api : ApiClient) (slat slon srad : String) (qlat qlon qrad : Dec),
      parseFloat slat = some qlat → parseFloat slon = some qlon →
      parseFloat srad = some qrad →
      -90 ≤ qlat.toRat → qlat.toRat ≤ 90 →
      -180 ≤ qlon.toRat → qlon.toRat ≤ 180 →
      qrad.toRat ≤ 0 →
      handle_call_tool api "aircraft_near_position"
        [("latitude", slat), ("longitude", slon), ("radius", srad)] =
        (errRadiusPos, [])) ∧
    (errLatRange ≠ errLonRange ∧ errLatRange ≠ errRadiusMax ∧
      errLatRange ≠ errRadiusPos ∧ errLonRange ≠ errRadiusMax ∧
      errLonRange ≠ errRadiusPos ∧ errRadiusMax ≠ errRadiusPos ∧
      fmErrLatRange ≠ fmErrLonRange ∧ fmErrLatRange ≠ fmErrRadiusMax ∧
      fmErrLatRange ≠ fmErrRadiusPos ∧ fmErrLonRange ≠ fmErrRadiusMax ∧
      fmErrLonRange ≠ fmErrRadiusPos ∧ fmErrRadiusMax ≠ fmErrRadiusPos) ∧
    (∀ api : ApiClient,
      (handle_call_tool api "aircraft_near_position"
        [("latitude", "90"), ("longitude", "-180"), ("radius", "250")]).2 =
        [.point ⟨90, 0⟩ ⟨-180, 0⟩ ⟨250, 0⟩]) ∧
    (∀ (api : ApiClient) (la lo ra : Dec),
      ((la.toRat < -90 ∨ 90 < la.toRat) →
        mcp_aircraft_near_position api la lo ra = (fmErrLatRange, [])) ∧
      (-90 ≤ la.toRat → la.toRat ≤ 90 → (lo.toRat < -180 ∨ 180 < lo.toRat) →
        mcp_aircraft_near_position api la lo ra = (fmErrLonRange, [])) ∧
      (-90 ≤ la.toRat → la.toRat ≤ 90 → -180 ≤ lo.toRat → lo.toRat ≤ 180 →
        250 < ra.toRat →
        mcp_aircraft_near_position api la lo ra = (fmErrRadiusMax, [])) ∧
      (-90 ≤ la.toRat → la.toRat ≤ 90 → -180 ≤ lo.toRat → lo.toRat ≤ 180 →
        ra.toRat ≤ 0 →
        mcp_aircraft_near_position api la lo ra = (fmErrRadiusPos, []))) ∧
    (∀ api : ApiClient,
      (mcp_aircraft_near_position api ⟨90, 0⟩ ⟨-180, 0⟩ ⟨250, 0⟩).2 =
        [.point ⟨90, 0⟩ ⟨-180, 0⟩ ⟨250, 0⟩]) := by
  have latBad : ∀ q : Dec, (q.toRat < -90 ∨ 90 < q.toRat) →
      (!(Dec.ble (Dec.ofInt (-90)) q && Dec.ble q (Dec.ofInt 90))) = true := by
    intro q hq
    rcases hq with h | h
    · have hf : Dec.ble (Dec.ofInt (-90)) q = false := by
        rw [Dec.ble_eq_false, Dec.toRat_ofInt]
        exact_mod_cast h
      simp [hf]
    · have hf : Dec.ble q (Dec.ofInt 90) = false := by
        rw [Dec.ble_eq_false, Dec.toRat_ofInt]
        exact_mod_cast h
      simp [hf]
  have latOk : ∀ q : Dec, -90 ≤ q.toRat → q.toRat ≤ 90 →
      (!(Dec.ble (Dec.ofInt (-90)) q && Dec.ble q (Dec.ofInt 90))) = false := by
    intro q h1 h2
    have hb1 : Dec.ble (Dec.ofInt (-90)) q = true := by
      rw [Dec.ble_iff, Dec.toRat_ofInt]
      exact_mod_cast h1
    have hb2 : Dec.ble q (Dec.ofInt 90) = true := by
      rw [Dec.ble_iff, Dec.toRat_ofInt]
      exact_mod_cast h2
    simp [hb1, hb2]
  have lonBad : ∀ q : Dec, (q.toRat < -180 ∨ 180 < q.toRat) →
      (!(Dec.ble (Dec.ofInt (-180)) q && Dec.ble q (Dec.ofInt 180))) = true := by
    intro q hq
    rcases hq with h | h
    · have hf : Dec.ble (Dec.ofInt (-180)) q = false := by
        rw [Dec.ble_eq_false, Dec.toRat_ofInt]
        exact_mod_cast h
      simp [hf]
    · have hf : Dec.ble q (Dec.ofInt 180) = false := by
        rw [Dec.ble_eq_false, Dec.toRat_ofInt]
        exact_mod_cast h
      simp [hf]
  have lonOk : ∀ q : Dec, -180 ≤ q.toRat → q.toRat ≤ 180 →
      (!(Dec.ble (Dec.ofInt (-180)) q && Dec.ble q (Dec.ofInt 180))) = false := by
    intro q h1 h2
    have hb1 : Dec.ble (Dec.ofInt (-180)) q = true := by
      rw [Dec.ble_iff, Dec.toRat_ofInt]
      exact_mod_cast h1
    have hb2 : Dec.ble q (Dec.ofInt 180) = true := by
      rw [Dec.ble_iff, Dec.toRat_ofInt]
      exact_mod_cast h2
    simp [hb1, hb2]
  have radBig : ∀ q : Dec, 250 < q.toRat → Dec.blt (Dec.ofInt 250) q = true := by
    intro q h
    rw [Dec.blt_iff, Dec.toRat_ofInt]
    exact_mod_cast h
  have radNotBig : ∀ q : Dec, q.toRat ≤ 250 → Dec.blt (Dec.ofInt 250) q = false := by
    intro q h
    rw [Dec.blt_eq_false, Dec.toRat_ofInt]
    exact_mod_cast h
  have radNonPos : ∀ q : Dec, q.toRat ≤ 0 → Dec.ble q (Dec.ofInt 0) = true := by
    intro q h
    rw [Dec.ble_iff, Dec.toRat_ofInt]
    exact_mod_cast h
  refine ⟨?_, ?_, ?_, ?_, by decide, ?_, ?_, ?_⟩
  · intro api slat slon srad qlat qlon qrad hlat hlon hrad hout
    simp [handle_call_tool, getArg, radiusArg, strip_beq_false_of_parse hlat,
      strip_beq_false_of_parse hlon, strip_beq_false_of_parse hrad,
      hlat, hlon, hrad, latBad qlat hout]
  · intro api slat slon srad qlat qlon qrad hlat hlon hrad h1 h2 hout
    simp [handle_call_tool, getArg, radiusArg, strip_beq_false_of_parse hlat,
      strip_beq_false_of_parse hlon, strip_beq_false_of_parse hrad,
      hlat, hlon, hrad, latOk qlat h1 h2, lonBad qlon hout]
  · intro api slat slon srad qlat qlon qrad hlat hlon hrad h1 h2 h3 h4 hbig
    simp [handle_call_tool, getArg, radiusArg, strip_beq_false_of_parse hlat,
      strip_beq_false_of_parse hlon, strip_beq_false_of_parse hrad,
      hlat, hlon, hrad, latOk qlat h1 h2, lonOk qlon h3 h4, radBig qrad hbig]
  · intro api slat slon srad qlat qlon qrad hlat hlon hrad h1 h2 h3 h4 hle
    simp [handle_call_tool, getArg, radiusArg, strip_beq_false_of_parse hlat,
      strip_beq_false_of_parse hlon, strip_beq_false_of_parse hrad,
      hlat, hlon, hrad, latOk qlat h1 h2, lonOk qlon h3 h4,
      radNotBig qrad (by linarith), radNonPos qrad hle]
  · intro api
    have p90 : parseFloat "90" = some ⟨90, 0⟩ := by decide
    have pm180 : parseFloat "-180" = some ⟨-180, 0⟩ := by decide
    have p250 : parseFloat "250" = some ⟨250, 0⟩ := by decide
    have h1 : (!(Dec.ble (Dec.ofInt (-90)) ⟨90, 0⟩ && Dec.ble ⟨90, 0⟩ (Dec.ofInt 90))) =
        false := by decide
    have h2 : (!(Dec.ble (Dec.ofInt (-180)) ⟨-180, 0⟩ &&
        Dec.ble ⟨-180, 0⟩ (Dec.ofInt 180))) = false := by decide
    have h3 : Dec.blt (Dec.ofInt 250) ⟨250, 0⟩ = false := by decide
    have h4 : Dec.ble ⟨250, 0⟩ (Dec.ofInt 0) = false := by decide
    simp [handle_call_tool, getArg, radiusArg, strip_beq_false_of_parse p90,
      strip_beq_false_of_parse pm180, strip_beq_false_of_parse p250,
      p90, pm180, p250, h1, h2, h3, h4, callApi_snd]
  · intro api la lo ra
    refine ⟨?_, ?_, ?_, ?_⟩
    · intro hout
      simp [mcp_aircraft_near_position, latBad la hout]
    · intro h1 h2 hout
      simp [mcp_aircraft_near_position, latOk la h1 h2, lonBad lo hout]
    · intro h1 h2 h3 h4 hbig
      simp [mcp_aircraft_near_position, latOk la h1 h2, lonOk lo h3 h4, radBig ra hbig]
    · intro h1 h2 h3 h4 hle
      simp [mcp_aircraft_near_position, latOk la h1 h2, lonOk lo h3 h4,
        radNotBig ra (by linarith), radNonPos ra hle]
  · intro api
    have h1 : (!(Dec.ble (Dec.ofInt (-90)) ⟨90, 0⟩ && Dec.ble ⟨90, 0⟩ (Dec.ofInt 90))) =
        false := by decide
    have h2 : (!(Dec.ble (Dec.ofInt (-180)) ⟨-180, 0⟩ &&
        Dec.ble ⟨-180, 0⟩ (Dec.ofInt 180))) = false := by decide
    have h3 : Dec.blt (Dec.ofInt 250) ⟨250, 0⟩ = false := by decide
    have h4 : Dec.ble ⟨250, 0⟩ (Dec.ofInt 0) = false := by decide
    rcases h : api (Endpoint.point ⟨90, 0⟩ ⟨-180, 0⟩ ⟨250, 0⟩) with e | a <;>
      simp [mcp_aircraft_near_position, h1, h2, h3, h4, h]

theorem c5_near_position_validation_witness :
    parseFloat "95" = some ⟨95, 0⟩ ∧
    parseFloat "10" = some ⟨10, 0⟩ ∧
    parseFloat "100" = some ⟨100, 0⟩ ∧
    parseFloat "300" = some ⟨300, 0⟩ ∧
    ((Dec.mk 95 0).toRat < -90 ∨ 90 < (Dec.mk 95 0).toRat) ∧
    handle_call_tool (fun _ => .error "down") "aircraft_near_position"
      [("latitude", "95"), ("longitude", "10"), ("radius", "100")] =
      (errLatRange, []) ∧
    handle_call_tool (fun _ => .error "down") "aircraft_near_position"
      [("latitude", "10"), ("longitude", "10"), ("radius", "300")] =
      (errRadiusMax, []) ∧
    (handle_call_tool (fun _ => .error "down") "aircraft_near_position"
      [("latitude", "90"), ("longitude", "-180"), ("radius", "250")]).2 =
      [.point ⟨90, 0⟩ ⟨-180, 0⟩ ⟨250, 0⟩] ∧
    mcp_aircraft_near_position (fun _ => .error "down") ⟨95, 0⟩ ⟨10, 0⟩ ⟨100, 0⟩ =
      (fmErrLatRange, []) :=
  ⟨by decide, by decide, by decide, by decide,
   Or.inr (by norm_num [Dec.toRat]),
   c5_near_position_validation.1 (fun _ => .error "down") "95" "10" "100"
     ⟨95, 0⟩ ⟨10, 0⟩ ⟨100, 0⟩ (by decide) (by decide) (by decide)
     (Or.inr (by norm_num [Dec.toRat])),
   (c5_near_position_validation.2.2.1) (fun _ => .error "down") "10" "10" "300"
     ⟨10, 0⟩ ⟨10, 0⟩ ⟨300, 0⟩ (by decide) (by decide) (by decide)
     (by norm_num [Dec.toRat]) (by norm_num [Dec.toRat])
     (by norm_num [Dec.toRat]) (by norm_num [Dec.toRat])
     (by norm_num [Dec.toRat]),
   (c5_near_position_validation.2.2.2.2.2.1) (fun _ => .error "down"),
   ((c5_near_position_validation.2.2.2.2.2.2.1) (fun _ => .error "down")
     ⟨95, 0⟩ ⟨10, 0⟩ ⟨100, 0⟩).1 (Or.inr (by norm_num [Dec.toRat]))⟩

/-! ### C6: error propagation across the MCP boundary -/

/-- With an upstream client that always fails with message `e`, every
`handle_call_tool` invocation that requests an endpoint returns the
marker-prefixed text `excText e`. -/
theorem handle_call_tool_error_text (name : String) (args : List (String × String))
    (e : String) :
    (handle_call_tool (fun _ => .error e) name args).2 ≠ [] →
    (handle_call_tool (fun _ => .error e) name args).1 = excText e := by
  by_cases h1 : name = "aircraft_by_hex"
  · subst h1
    rcases hb : pyStrip (getArg args "hex_id" "") == "" with _ | _
    · intro _
      simp [handle_call_tool, hb, callApi]
    · intro h
      exact absurd (by simp [handle_call_tool, hb]) h
  by_cases h2 : name = "aircraft_by_callsign"
  · subst h2
    rcases hb : pyStrip (getArg args "callsign" "") == "" with _ | _
    · intro _
      simp [handle_call_tool, hb, callApi]
    · intro h
      exact absurd (by simp [handle_call_tool, hb]) h
  by_cases h3 : name = "aircraft_by_registration"
  · subst h3
    rcases hb : pyStrip (getArg args "reg" "") == "" with _ | _
    · intro _
      simp [handle_call_tool, hb, callApi]
    · intro h
      exact absurd (by simp [handle_call_tool, hb]) h
  by_cases h4 : name = "aircraft_by_type"
  · subst h4
    rcases hb : pyStrip (getArg args "icao_type" "") == "" with _ | _
    · intro _
      simp [handle_call_tool, hb, callApi]
    · intro h
      exact absurd (by simp [handle_call_tool, hb]) h
  by_cases h5 : name = "aircraft_by_squawk"
  · subst h5
    rcases hb : pyStrip (getArg args "squawk_code" "") == "" with _ | _
    · intro _
      simp [handle_call_tool, hb, callApi]
    · intro h
      exact absurd (by simp [handle_call_tool, hb]) h
  by_cases h6 : name = "aircraft_near_position"
  · subst h6
    rcases hb : (pyStrip (getArg args "latitude" "") == "" ||
        pyStrip (getArg args "longitude" "") == "") with _ | _
    · rcases hlat : parseFloat (getArg args "latitude" "") with _ | qlat
      · intro h
        exact absurd (by simp [handle_call_tool, hb, hlat]) h
      rcases hlon : parseFloat (getArg args "longitude" "") with _ | qlon
      · intro h
        exact absurd (by simp [handle_call_tool, hb, hlat, hlon]) h
      rcases hrad : radiusArg (getArg args "radius" "250") with _ | ⟨qrad, srad⟩
      · intro h
        exact absurd (by simp [handle_call_tool, hb, hlat, hlon, hrad]) h
      rcases hc1 : (!(Dec.ble (Dec.ofInt (-90)) qlat && Dec.ble qlat (Dec.ofInt 90)))
        with _ | _
      · rcases hc2 : (!(Dec.ble (Dec.ofInt (-180)) qlon && Dec.ble qlon (Dec.ofInt 180)))
          with _ | _
        · rcases hc3 : Dec.blt (Dec.ofInt 250) qrad with _ | _
          · rcases hc4 : Dec.ble qrad (Dec.ofInt 0) with _ | _
            · intro _
              simp [handle_call_tool, hb, hlat, hlon, hrad, hc1, hc2, hc3, hc4, callApi]
            · intro h
              exact absurd
                (by simp [handle_call_tool, hb, hlat, hlon, hrad, hc1, hc2, hc3, hc4]) h
          · intro h
            exact absurd
              (by simp [handle_call_tool, hb, hlat, hlon, hrad, hc1, hc2, hc3]) h
        · intro h
          exact absurd (by simp [handle_call_tool, hb, hlat, hlon, hrad, hc1, hc2]) h
      · intro h
        exact absurd (by simp [handle_call_tool, hb, hlat, hlon, hrad, hc1]) h
    · intro h
      exact absurd (by simp [handle_call_tool, hb]) h
  by_cases h7 : name = "military_aircraft"
  · subst h7
    intro _
    simp [handle_call_tool, callApi]
  by_cases h8 : name = "ladd_aircraft"
  · subst h8
    intro _
    simp [handle_call_tool, callApi]
  by_cases h9 : name = "pia_aircraft"
  · subst h9
    intro _
    simp [handle_call_tool, callApi]
  intro h
  exact absurd (by simp [handle_call_tool, h1, h2, h3, h4, h5, h6, h7, h8, h9]) h

/-- **C6** counterexample: with a failing upstream client, the FastMCP
`military_aircraft` tool lets the exception propagate out of the tool call
instead of returning a textual result. -/
theorem c6_propagation_counterexample :
    mcp_military_aircraft (fun _ => .error "Connection refused") =
      .error "Connection refused" := rfl

/-- **C6** (amended).  The stdio server's `handle_call_tool` never lets an
exception escape (it is total by construction) and converts every upstream
failure it sees into a textual result carrying the visible error marker; the
FastMCP `aircraft_near_position` does the same; but the remaining FastMCP
tools (e.g. `military_aircraft`) have no try/except and propagate the
upstream exception out of the tool call. -/
theorem c6_upstream_errors_textual :
    (∀ (name : String) (args : List (String × String)) (e : String),
      (handle_call_tool (fun _ => .error e) name args).2 ≠ [] →
      (handle_call_tool (fun _ => .error e) name args).1 = excText e) ∧
    (∀ (la lo ra : Dec) (e : String),
      (mcp_aircraft_near_position (fun _ => .error e) la lo ra).2 ≠ [] →
      (mcp_aircraft_near_position (fun _ => .error e) la lo ra).1 =
        fmErrMark ++ " Error: " ++ e) ∧
    (∀ e : String, mcp_military_aircraft (fun _ => .error e) = .error e) := by
  refine ⟨?_, ?_, fun e => rfl⟩
  · intro name args e h
    exact handle_call_tool_error_text name args e h
  · intro la lo ra e h
    unfold mcp_aircraft_near_position at h ⊢
    split_ifs at h ⊢ <;> simp_all

theorem c6_upstream_errors_textual_witness :
    (handle_call_tool (fun _ => .error "boom") "military_aircraft" []).2 ≠ [] ∧
    (handle_call_tool (fun _ => .error "boom") "military_aircraft" []).1 =
      excText "boom" ∧
    (mcp_aircraft_near_position (fun _ => .error "boom") ⟨40, 0⟩ ⟨10, 0⟩ ⟨50, 0⟩).2 ≠ [] ∧
    (mcp_aircraft_near_position (fun _ => .error "boom") ⟨40, 0⟩ ⟨10, 0⟩ ⟨50, 0⟩).1 =
      fmErrMark ++ " Error: " ++ "boom" :=
  ⟨by decide,
   c6_upstream_errors_textual.1 "military_aircraft" [] "boom" (by decide),
   by decide,
   c6_upstream_errors_textual.2.1 ⟨40, 0⟩ ⟨10, 0⟩ ⟨50, 0⟩ "boom" (by decide)⟩

/-! ### C7: the hex end-to-end scenario -/

/-- The single upstream aircraft of the C7 scenario:
`{"hex":"4ca87c","callsign":"RYR123 ","lat":51.1,"lon":-0.4}`. -/
def c7aircraft : Aircraft :=
  { callsign := some "RYR123 ", lat := some ⟨511, 1⟩, lon := some ⟨-4, 1⟩,
    hex := some "4ca87c" }

/-- An upstream client answering the C7 scenario's response for the queried
hex id. -/
def c7api : ApiClient := fun ep =>
  if ep = .hex "4CA87C" then .ok [c7aircraft] else .error "unexpected endpoint"

/-- **C7** counterexample: the tool result does not begin with
"Found 1 aircraft" — the literal text starts with the (mojibake) search
marker, and only then "Found 1 aircraft". -/
theorem c7_prefix_counterexample :
    ¬ ("Found 1 aircraft".data <+:
        (handle_call_tool c7api "aircraft_by_hex" [("hex_id", "4CA87C")]).1.data) := by
  decide

/-- **C7** (amended).  For hex_id "4CA87C" against the upstream response
`{"ac":[{"hex":"4ca87c","callsign":"RYR123 ","lat":51.1,"lon":-0.4}]}`, the
`aircraft_by_hex` tool requests exactly `/hex/4CA87C` and yields a result
that begins with the search marker immediately followed by
"Found 1 aircraft", and contains the trimmed callsign "RYR123" and the
position text "51.1000, -0.4000". -/
theorem c7_hex_end_to_end :
    (handle_call_tool c7api "aircraft_by_hex" [("hex_id", "4CA87C")]).2 =
      [.hex "4CA87C"] ∧
    (handle_call_tool c7api "aircraft_by_hex" [("hex_id", "4CA87C")]).1 =
      emFound ++ " Found 1 aircraft:\n\n" ++
        (stdioLabels.callsign ++ "RYR123" ++ "\n" ++
         stdioLabels.position ++ "51.1000, -0.4000" ++ "\n" ++
         stdioLabels.hexId ++ "4ca87c") ∧
    ((emFound ++ " Found 1 aircraft").data <+:
      (handle_call_tool c7api "aircraft_by_hex" [("hex_id", "4CA87C")]).1.data) ∧
    ("RYR123".data <:+:
      (handle_call_tool c7api "aircraft_by_hex" [("hex_id", "4CA87C")]).1.data) ∧
    ("51.1000, -0.4000".data <:+:
      (handle_call_tool c7api "aircraft_by_hex" [("hex_id", "4CA87C")]).1.data) :=
  ⟨by decide, by decide, by decide, by decide, by decide⟩

/-! ### C8: unresolvable city names -/

/-- **C8.** For every city-name search where the geocoding service returns
an empty result array, `geocode_city` raises the 404 `HTTPException` whose
detail embeds the literal city name, the endpoint returns the error envelope
carrying exactly that detail, and the aircraft API (the bridge tool call) is
never invoked. -/
theorem c8_city_not_found (callTool : Dec → Dec → Nat → ToolReply)
    (city : String) (radius : Nat) :
    geocode_city (.ok []) city =
      .error ⟨404, "City \x27" ++ city ++ "\x27 not found"⟩ ∧
    get_aircraft_near_city callTool (.ok []) city radius =
      (.errBody ("City \x27" ++ city ++ "\x27 not found"), 0) ∧
    (city.data <:+: ("City \x27" ++ city ++ "\x27 not found").data) := by
  refine ⟨rfl, rfl, ⟨"City \x27".data, "\x27 not found".data, ?_⟩⟩
  simp [String.data_append]

/-! ### C9: the direct HTTP facade -/

/-- **C9.** Every endpoint of the direct HTTP facade forwards the query to
the upstream client directly (the built endpoint carries exactly the query's
fields; no bridge is involved) and returns the raw upstream body on success;
any upstream failure becomes a 502 response whose detail is the failure's
message. -/
theorem c9_http_facade {α : Type} (api : Endpoint → Except String α)
    (hex_id callsign reg icao_type squawk_code : String)
    (latitude longitude radius : Dec) (d : α) (e : String) :
    (api (.hex hex_id) = .ok d → http_aircraft_by_hex api hex_id = .ok d) ∧
    (api (.hex hex_id) = .error e →
      http_aircraft_by_hex api hex_id = .error ⟨502, e⟩) ∧
    (api (.callsign callsign) = .ok d →
      http_aircraft_by_callsign api callsign = .ok d) ∧
    (api (.callsign callsign) = .error e →
      http_aircraft_by_callsign api callsign = .error ⟨502, e⟩) ∧
    (api (.reg reg) = .ok d → http_aircraft_by_reg api reg = .ok d) ∧
    (api (.reg reg) = .error e → http_aircraft_by_reg api reg = .error ⟨502, e⟩) ∧
    (api (.type icao_type) = .ok d → http_aircraft_by_type api icao_type = .ok d) ∧
    (api (.type icao_type) = .error e →
      http_aircraft_by_type api icao_type = .error ⟨502, e⟩) ∧
    (api (.squawk squawk_code) = .ok d →
      http_aircraft_by_squawk api squawk_code = .ok d) ∧
    (api (.squawk squawk_code) = .error e →
      http_aircraft_by_squawk api squawk_code = .error ⟨502, e⟩) ∧
    (api (.point latitude longitude radius) = .ok d →
      http_aircraft_by_point api latitude longitude radius = .ok d) ∧
    (api (.point latitude longitude radius) = .error e →
      http_aircraft_by_point api latitude longitude radius = .error ⟨502, e⟩) := by
  refine ⟨?_, ?_, ?_, ?_, ?_, ?_, ?_, ?_, ?_, ?_, ?_, ?_⟩ <;>
    intro h <;>
    simp [http_aircraft_by_hex, http_aircraft_by_callsign, http_aircraft_by_reg,
      http_aircraft_by_type, http_aircraft_by_squawk, http_aircraft_by_point, h]

theorem c9_http_facade_witness :
    ((fun _ => Except.ok 7 : Endpoint → Except String Nat) (.hex "4CA87C") =
      Except.ok 7) ∧
    http_aircraft_by_hex (fun _ => Except.ok 7 : Endpoint → Except String Nat)
      "4CA87C" = .ok 7 ∧
    ((fun _ => Except.error "boom" : Endpoint → Except String Nat)
      (.point ⟨1, 0⟩ ⟨2, 0⟩ ⟨50, 0⟩) = Except.error "boom") ∧
    http_aircraft_by_point (fun _ => Except.error "boom" : Endpoint → Except String Nat)
      ⟨1, 0⟩ ⟨2, 0⟩ ⟨50, 0⟩ = .error ⟨502, "boom"⟩ :=
  ⟨rfl,
   (c9_http_facade (fun _ => Except.ok 7) "4CA87C" "" "" "" "" ⟨1, 0⟩ ⟨2, 0⟩ ⟨50, 0⟩
     7 "boom").1 rfl,
   rfl,
   (c9_http_facade (fun _ => Except.error "boom") "4CA87C" "" "" "" ""
     ⟨1, 0⟩ ⟨2, 0⟩ ⟨50, 0⟩ 7 "boom").2.2.2.2.2.2.2.2.2.2.2 rfl⟩

/-! ### C10: zero-valued numeric fields in `format_aircraft_data` -/

/-- **C10.** For every aircraft record whose barometric altitude, ground
speed, or track equals 0, `format_aircraft_data` omits the corresponding
output line entirely — the record formats identically to one with the field
absent — while latitude/longitude 0 is still printed because position
presence is tested against `None`; an empty aircraft list yields exactly
"No aircraft found".  Both formatting variants behave alike. -/
theorem c10_zero_number_fields :
    (∀ (ac : Aircraft) (z : Dec), z.man = 0 →
      format_info stdioLabels { ac with alt_baro := some z } =
        format_info stdioLabels { ac with alt_baro := none }) ∧
    (∀ (ac : Aircraft) (z : Dec), z.man = 0 →
      format_info stdioLabels { ac with gs := some z } =
        format_info stdioLabels { ac with gs := none }) ∧
    (∀ (ac : Aircraft) (z : Dec), z.man = 0 →
      format_info stdioLabels { ac with track := some z } =
        format_info stdioLabels { ac with track := none }) ∧
    (∀ (ac : Aircraft) (z : Dec), z.man = 0 →
      format_info fastmcpLabels { ac with alt_baro := some z } =
        format_info fastmcpLabels { ac with alt_baro := none }) ∧
    (∀ (ac : Aircraft) (z : Dec), z.man = 0 →
      format_info fastmcpLabels { ac with gs := some z } =
        format_info fastmcpLabels { ac with gs := none }) ∧
    (∀ (ac : Aircraft) (z : Dec), z.man = 0 →
      format_info fastmcpLabels { ac with track := some z } =
        format_info fastmcpLabels { ac with track := none }) ∧
    (∀ ac : Aircraft,
      (stdioLabels.position ++ "0.0000, 0.0000") ∈
        format_info stdioLabels { ac with lat := some ⟨0, 0⟩, lon := some ⟨0, 0⟩ }) ∧
    (∀ ac : Aircraft,
      (fastmcpLabels.position ++ "0.0000, 0.0000") ∈
        format_info fastmcpLabels { ac with lat := some ⟨0, 0⟩, lon := some ⟨0, 0⟩ }) ∧
    format_aircraft_data stdioLabels [] = "No aircraft found" ∧
    format_aircraft_data fastmcpLabels [] = "No aircraft found" ∧
    format_aircraft_data stdioLabels
      [{ callsign := some "ABC", alt_baro := some ⟨0, 0⟩, gs := some ⟨0, 0⟩,
         track := some ⟨0, 0⟩ }] = stdioLabels.callsign ++ "ABC" := by
  have hf : fmt4 ⟨0, 0⟩ = "0.0000" := by decide
  refine ⟨?_, ?_, ?_, ?_, ?_, ?_, ?_, ?_, by decide, by decide, by decide⟩ <;>
    first
      | (intro ac z hz; simp [format_info, hz])
      | (intro ac
         simp [format_info, hf]
         exact Or.inr (Or.inr (Or.inr (Or.inl (by decide)))))

theorem c10_zero_number_fields_witness :
    (Dec.mk 0 1).man = 0 ∧
    format_info stdioLabels { ({} : Aircraft) with alt_baro := some ⟨0, 1⟩ } =
      format_info stdioLabels { ({} : Aircraft) with alt_baro := none } ∧
    format_info fastmcpLabels { ({} : Aircraft) with track := some ⟨0, 1⟩ } =
      format_info fastmcpLabels { ({} : Aircraft) with track := none } :=
  ⟨by decide,
   c10_zero_number_fields.1 {} ⟨0, 1⟩ (by decide),
   c10_zero_number_fields.2.2.2.2.2.1 {} ⟨0, 1⟩ (by decide)⟩

end AirplanesLive
